import Mathlib

/-!
Verification of the embedded C fragments in the ATtiny85 optimization guide
(`attiny_code_optimization_guide.h` and `README.md`).

The repository is documentation; the only executable content consists of
small C fragments quoted in the text.  We embed those fragments shallowly:
`uint8_t` values are natural numbers below 256, assignments to `uint8_t`
truncate with `% 256`, and the bitwise operators are `Nat.land`, `Nat.lor`
and `Nat.xor`.  The C complement `~m` applied to an 8-bit register value is
modelled as `255 ^^^ m` (complement within 8 bits), which agrees with the
truncation to 8 bits that the register assignment performs.
-/

set_option maxRecDepth 8192

/-- Pin constants from `avr/io.h` for the ATtiny85: `PBn = n`. -/
def PB1 : Nat := 1

/-- Pin constant `PB3 = 3` from `avr/io.h`. -/
def PB3 : Nat := 3

/-- Pin constant `PB4 = 4` from `avr/io.h`. -/
def PB4 : Nat := 4

/-- Pin constant `PB5 : Nat := 5` from `avr/io.h`. -/
def PB5 : Nat := 5

/-- Embedding of the fragment `x = y / 2;` on a `uint8_t` value `y`
(source: guide line 62, README line 111). -/
def divHalfFrag (y : Nat) : Nat := y / 2

/-- Embedding of the fragment `x = y >> 1;` on a `uint8_t` value `y`
(source: guide line 63, README line 112). -/
def shrOneFrag (y : Nat) : Nat := y >>> 1

/-- First TinyJoypad initialization line
`DDRB &= ~( ( 1 << PB5) | ( 1 << PB3 ) | ( 1 << PB1 ) );`
(source: guide line 45).  `~` on the 8-bit register is `255 ^^^ mask`. -/
def ddrbInputLine (ddrb : Nat) : Nat :=
  Nat.land ddrb (255 ^^^ (Nat.lor (Nat.lor (1 <<< PB5) (1 <<< PB3)) (1 <<< PB1)))

/-- Second TinyJoypad initialization line `DDRB |= ( 1 << PB4 );`
(source: guide line 47). -/
def ddrbOutputLine (ddrb : Nat) : Nat :=
  Nat.lor ddrb (1 <<< PB4)

/-- The two TinyJoypad initialization lines executed in order on `DDRB`. -/
def tinyJoypadInit (ddrb : Nat) : Nat :=
  ddrbOutputLine (ddrbInputLine ddrb)

/-- The ATtiny85 I/O port state visible to the TinyJoypad initialization:
registers `DDRB`, `PORTB` and `PINB`, each an 8-bit value. -/
structure PortState where
  DDRB : Nat
  PORTB : Nat
  PINB : Nat
deriving DecidableEq, Repr

/-- The TinyJoypad initialization as a transformer of the whole port state:
the two lines only ever assign to `DDRB`. -/
def tinyJoypadInitState (s : PortState) : PortState :=
  { s with DDRB := tinyJoypadInit s.DDRB }

/-- Values taken by `bitValue` in the original loop
`for ( uint8_t n = 0; n < 8; n++ ) { uint8_t bitValue = ( 1 << n ); ... }`
(source: guide lines 53-56).  The shift result is truncated to `uint8_t`
on assignment. -/
def originalBitValues : List Nat :=
  (List.range 8).map (fun n => (1 <<< n) % 256)

/-- One update `bitValue <<= 1` of the rewritten loop on a `uint8_t`:
doubling modulo 2^8. -/
def shlStep (b : Nat) : Nat := (b * 2) % 256

/-- Trace of the rewritten loop
`for ( uint8_t bitValue = 1; bitValue != 0; bitValue <<= 1 ) { ... }`
(source: guide line 58): the values `bitValue` takes at the head of each
iteration, collected with an explicit fuel bound. -/
def rewrittenBitValuesAux : Nat → Nat → List Nat
  | 0, _ => []
  | fuel + 1, b => if b ≠ 0 then b :: rewrittenBitValuesAux fuel (shlStep b) else []

/-- Trace of the rewritten loop started at `bitValue = 1`, with fuel 256
(more than enough for any 8-bit trajectory). -/
def rewrittenBitValues : List Nat :=
  rewrittenBitValuesAux 256 1

/-- Value of `bitValue` in the rewritten loop after `k` iterations. -/
def bitValueAfter (k : Nat) : Nat :=
  Nat.iterate shlStep k 1

/-- Number of iterations the rewritten loop performs from state `b`,
counted with explicit fuel: `none` when the fuel runs out before the loop
condition `bitValue != 0` becomes false. -/
def loopIters : Nat → Nat → Option Nat
  | 0, _ => none
  | fuel + 1, b => if b = 0 then some 0 else (loopIters fuel (shlStep b)).map (fun n => n + 1)

/-- Embedding of the reproduction snippet (source: guide lines 65-73).
Given `a = random(12)` and `b = random(24)` and the current byte `cByte`
stored at `*c`, the block
`if ( a > b ) { b = a / 2; *c = b; }`
returns the final pair `(b, *c)`. -/
def reproSnippet (a b cByte : Nat) : Nat × Nat :=
  if a > b then
    let b2 := a / 2
    (b2, b2)
  else (b, cByte)

/-- Decidable check that the two fragments `x = y / 2` and `x = y >> 1`
agree on every `uint8_t` input: an input-output equivalence between two
embedded fragments of the repository. -/
def fragmentsEquivLaw : Bool :=
  (List.range 256).all (fun y => divHalfFrag y == shrOneFrag y)

/-- Checked (total) embedding of C unsigned division: errors on a zero
divisor, otherwise returns the quotient. -/
def cDiv (a b : Nat) : Except String Nat :=
  if b = 0 then Except.error "division by zero" else Except.ok (a / b)

/-- Checked (total) embedding of a right shift on a `w`-bit operand:
errors when the shift amount reaches the operand width. -/
def cShr (w a n : Nat) : Except String Nat :=
  if n < w then Except.ok (a >>> n) else Except.error "shift amount too large"

/-- Checked (total) embedding of a left shift on a `w`-bit operand:
errors when the shift amount reaches the operand width, otherwise
truncates the result to `w` bits. -/
def cShl (w a n : Nat) : Except String Nat :=
  if n < w then Except.ok ((a <<< n) % 2 ^ w) else Except.error "shift amount too large"

/-- Checked (total) embedding of the store `arr[i] = v` into a global
`uint8_t` array modelled as a list: errors when the index is out of
bounds. -/
def cStore (arr : List Nat) (i v : Nat) : Except String (List Nat) :=
  if i < arr.length then Except.ok (arr.set i v) else Except.error "store out of bounds"

/-- Checked embedding of the fragment `x = y / 2;`: the division is
guarded. -/
def divHalfChecked (y : Nat) : Except String Nat := cDiv y 2

/-- Checked embedding of the fragment `x = y >> 1;`: the shift amount is
guarded against the 8-bit operand width. -/
def shrOneChecked (y : Nat) : Except String Nat := cShr 8 y 1

/-- Checked embedding of the two TinyJoypad initialization lines: every
shift `1 << PBn` is guarded against the 8-bit register width. -/
def tinyJoypadInitChecked (ddrb : Nat) : Except String Nat := do
  let m5 ← cShl 8 1 PB5
  let m3 ← cShl 8 1 PB3
  let m1 ← cShl 8 1 PB1
  let d1 := Nat.land ddrb (255 ^^^ Nat.lor (Nat.lor m5 m3) m1)
  let m4 ← cShl 8 1 PB4
  Except.ok (Nat.lor d1 m4)

/-- Checked embedding of the reproduction snippet with the global array
made explicit: the division and the store `*c = b` are guarded.  Returns
the final value of `b` together with the final array contents. -/
def reproSnippetChecked (a b : Nat) (arr : List Nat) (c : Nat) :
    Except String (Nat × List Nat) :=
  if a > b then do
    let b2 ← cDiv a 2
    let arr2 ← cStore arr c b2
    Except.ok (b2, arr2)
  else Except.ok (b, arr)

/-- True exactly when a checked computation did not take the error
branch. -/
def exceptOk {ε α : Type} : Except ε α → Bool
  | Except.ok _ => true
  | Except.error _ => false

/-- Fuel monotonicity: once the rewritten loop is observed to finish in
`n` iterations with some fuel, any extra fuel gives the same count. -/
theorem loopIters_fuel_succ (fuel : Nat) :
    ∀ b n, loopIters fuel b = some n → loopIters (fuel + 1) b = some n := by
  induction fuel with
  | zero => intro b n h; simp [loopIters] at h
  | succ f ih =>
    intro b n h
    by_cases hb : b = 0
    · simp [loopIters, hb] at h ⊢
      exact h
    · simp [loopIters, hb] at h ⊢
      obtain ⟨m, hm, hmn⟩ := h
      exact ⟨m, ih _ _ hm, hmn⟩

/-- C1: for every `uint8_t` value `y`, the fragments `x = y / 2` and
`x = y >> 1` assign the same value, namely the integer quotient of `y`
by 2. -/
theorem divHalf_eq_shrOne (y : Fin 256) :
    divHalfFrag y.val = shrOneFrag y.val ∧ divHalfFrag y.val = y.val / 2 := by
  refine ⟨?_, rfl⟩
  revert y
  decide

/-- C2: after the two TinyJoypad initialization lines, bits `PB1`, `PB3`
and `PB5` of `DDRB` are cleared (inputs) and bit `PB4` is set (output),
for every initial 8-bit `DDRB` value. -/
theorem tinyJoypadInit_configures_pins (d : Fin 256) :
    Nat.testBit (tinyJoypadInit d.val) PB1 = false ∧
    Nat.testBit (tinyJoypadInit d.val) PB3 = false ∧
    Nat.testBit (tinyJoypadInit d.val) PB5 = false ∧
    Nat.testBit (tinyJoypadInit d.val) PB4 = true := by
  revert d
  decide

/-- C7: the rewritten loop makes `bitValue` take exactly the values
1, 2, 4, 8, 16, 32, 64, 128 in that order, the same sequence that the
original loop `for ( uint8_t n = 0; n < 8; n++ )` produces with
`bitValue = (1 << n)`, with the same number of iterations. -/
theorem rewritten_loop_equiv_original :
    rewrittenBitValues = originalBitValues ∧
    rewrittenBitValues = [1, 2, 4, 8, 16, 32, 64, 128] ∧
    rewrittenBitValues.length = originalBitValues.length := by
  refine ⟨by decide, by decide, by decide⟩

/-- C8: the rewritten loop terminates on every execution: starting at
`bitValue = 1`, with any sufficient fuel it stops after exactly 8
iterations (doubling modulo 2^8 reaches 0), and the loop condition
`bitValue != 0` still holds at each of the first 8 iteration heads. -/
theorem rewritten_loop_terminates :
    (∀ extra : Nat, loopIters (extra + 9) 1 = some 8) ∧
    bitValueAfter 8 = 0 ∧
    (∀ k : Fin 8, bitValueAfter k.val ≠ 0) := by
  refine ⟨?_, by decide, by decide⟩
  intro extra
  induction extra with
  | zero => decide
  | succ e ih => exact loopIters_fuel_succ (e + 9) 1 8 ih

/-- C9: the two TinyJoypad initialization lines modify only bits `PB1`,
`PB3`, `PB4` and `PB5` of `DDRB`: bits 0, 2, 6 and 7 of `DDRB` keep their
initial values, and no register other than `DDRB` is written (`PORTB` and
`PINB` are unchanged). -/
theorem tinyJoypadInit_frame (d : Fin 256) (portb pinb : Nat) :
    (Nat.testBit (tinyJoypadInit d.val) 0 = Nat.testBit d.val 0 ∧
     Nat.testBit (tinyJoypadInit d.val) 2 = Nat.testBit d.val 2 ∧
     Nat.testBit (tinyJoypadInit d.val) 6 = Nat.testBit d.val 6 ∧
     Nat.testBit (tinyJoypadInit d.val) 7 = Nat.testBit d.val 7) ∧
    (tinyJoypadInitState ⟨d.val, portb, pinb⟩).PORTB = portb ∧
    (tinyJoypadInitState ⟨d.val, portb, pinb⟩).PINB = pinb := by
  refine ⟨?_, rfl, rfl⟩
  revert d
  decide

/-- C3: in the reproduction snippet, assuming `a < 12` and `b < 24`: when
`a > b` the final `b` equals `a / 2` (hence is at most 5) and the byte
stored at `*c` equals the final `b`; when `a <= b` both `b` and the byte
at `*c` keep their previous values. -/
theorem reproSnippet_correct (a b cByte : Nat) (ha : a < 12) (_hb : b < 24) :
    (a > b → (reproSnippet a b cByte).1 = a / 2 ∧ (reproSnippet a b cByte).1 ≤ 5 ∧
      (reproSnippet a b cByte).2 = (reproSnippet a b cByte).1) ∧
    (a ≤ b → reproSnippet a b cByte = (b, cByte)) := by
  constructor
  · intro hab
    simp [reproSnippet, hab]
    omega
  · intro hab
    simp [reproSnippet, Nat.not_lt.mpr hab]

/-- Witness for C3: the snippet theorem applied at `a = 7`, `b = 3`,
`cByte = 0`. -/
theorem reproSnippet_correct_witness :
    (7 > 3 → (reproSnippet 7 3 0).1 = 7 / 2 ∧ (reproSnippet 7 3 0).1 ≤ 5 ∧
      (reproSnippet 7 3 0).2 = (reproSnippet 7 3 0).1) ∧
    (7 ≤ 3 → reproSnippet 7 3 0 = (3, 0)) :=
  reproSnippet_correct 7 3 0 (by decide) (by decide)

/-- C4 counterexample: an equational law does hold over the repository's
embedded fragments — the decidable check that the fragments `x = y / 2`
and `x = y >> 1` are input-output equivalent on all 256 `uint8_t` inputs
evaluates to `true`, refuting the claim that no such law holds. -/
theorem fragments_equational_law_holds : fragmentsEquivLaw = true := by
  decide

/-- C4 (amended): at least one equational law holds as a verifiable
property of the embedded fragments: the fragments `x = y / 2` and
`x = y >> 1` are input-output equivalent on every `uint8_t` input. -/
theorem embedded_fragments_admit_law (y : Fin 256) :
    divHalfFrag y.val = shrOneFrag y.val := by
  revert y
  decide

/-- C5: the embedded fragments have no error conditions: the checked
embeddings of the division fragment, the shift fragment, the TinyJoypad
initialization and the reproduction snippet never take their error
branch, the last under the precondition that `c` indexes into the global
array. -/
theorem fragments_error_free (y d a b : Nat) (arr : List Nat) (c : Nat)
    (hc : c < arr.length) :
    exceptOk (divHalfChecked y) = true ∧
    exceptOk (shrOneChecked y) = true ∧
    exceptOk (tinyJoypadInitChecked d) = true ∧
    exceptOk (reproSnippetChecked a b arr c) = true := by
  refine ⟨rfl, rfl, rfl, ?_⟩
  by_cases hab : a > b
  · simp [reproSnippetChecked, hab, cDiv, cStore, hc, exceptOk, Bind.bind, Except.bind]
  · simp [reproSnippetChecked, hab, exceptOk]

/-- Witness for C5: the safety theorem applied at `y = 5`, `d = 0`,
`a = 7`, `b = 3`, the array `[0, 0]` and index `c = 0`. -/
theorem fragments_error_free_witness :
    exceptOk (divHalfChecked 5) = true ∧
    exceptOk (shrOneChecked 5) = true ∧
    exceptOk (tinyJoypadInitChecked 0) = true ∧
    exceptOk (reproSnippetChecked 7 3 [0, 0] 0) = true :=
  fragments_error_free 5 0 7 3 [0, 0] 0 (by decide)
